import Mathlib

/-! Shallow embedding of the smart-farm backend repository:
`src/smart_irrigation.py` (the irrigation control loop on the device) and
`src/app.py` (the FastAPI backend).

Conventions of the embedding:
* machine floats become `ℚ` (all constants in the source are exact decimals);
* Python `time.time()` values become `ℚ` timestamps supplied per tick;
* fallible external calls (HTTP, model loading) become `Option`-valued
  per-tick inputs, handled exactly as the `try/except` branches of the source do;
* the body of the `while True:` loop (smart_irrigation.py lines 172-298)
  becomes the pure step function `step` on an explicit `LoopState`, staged
  into the same sections the source is written in.
-/

namespace SmartFarm

/-- The `reason` tag strings of smart_irrigation.py: "NO", "AI", "EMERGENCY",
"MANUAL" (lines 215, 242, 246). -/
inductive Reason : Type
  | no : Reason
  | ai : Reason
  | emergency : Reason
  | manual : Reason
deriving DecidableEq, Repr

/-- The literal string used for each reason tag in the source. -/
def Reason.tag : Reason → String
  | .no => "NO"
  | .ai => "AI"
  | .emergency => "EMERGENCY"
  | .manual => "MANUAL"

/-- Configuration constants of smart_irrigation.py (lines 19-43) together with
the result of the model-loading block (lines 47-58): `modelLoaded` is whether
`MODEL` is not `None`, `THRESH` the effective threshold. -/
structure Config : Type where
  modelLoaded : Bool
  THRESH : ℚ
  EMERGENCY_ON_PCT : ℚ
  BURST_ON_SEC : ℚ
  REST_SEC : ℚ
  MIN_ON_SEC : ℚ
  MIN_OFF_SEC : ℚ
  MAX_ON_SEC : ℚ
  MAX_MIN_PER_HOUR : ℚ
  HOURLY_BUCKET : ℚ
  CONTROL_CHECK_INTERVAL : ℚ
deriving DecidableEq, Repr

/-- smart_irrigation.py lines 47-55: `joblib.load` either succeeds, yielding a
bundle whose optional `"threshold"` key defaults to `0.06`
(`bundle.get("threshold", 0.06)`), or raises `FileNotFoundError`, in which
case `MODEL = None` and `THRESH = 0.0`.  `THRESH_OVERRIDE` is `None` (line
26), so lines 57-58 leave `THRESH` unchanged. -/
def loadScorer (bundle : Option (Option ℚ)) : Bool × ℚ :=
  match bundle with
  | some th => (true, th.getD (6 / 100))
  | none => (false, 0)

/-- The full configuration produced at startup from the model-loading outcome,
with the constants of lines 27-34 and 42. -/
def mkConfig (bundle : Option (Option ℚ)) : Config :=
  { modelLoaded := (loadScorer bundle).1
    THRESH := (loadScorer bundle).2
    EMERGENCY_ON_PCT := 20
    BURST_ON_SEC := 4
    REST_SEC := 5
    MIN_ON_SEC := 6
    MIN_OFF_SEC := 3
    MAX_ON_SEC := 60
    MAX_MIN_PER_HOUR := 8
    HOURLY_BUCKET := 3600
    CONTROL_CHECK_INTERVAL := 3 }

/-- The mutable status variables of smart_irrigation.py lines 154-161 that the
pump-control logic reads and writes each tick. -/
structure LoopState : Type where
  pump_on : Bool
  last_change : ℚ
  on_start : ℚ
  rest_until : ℚ
  hour_window_start : ℚ
  run_sec_this_hour : ℚ
  last_control_check : ℚ
deriving DecidableEq, Repr

/-- Per-tick external inputs: the current time `time.time()`, the filtered
soil percentage produced by section 1 of the loop, the probability the model
would return (used only when the model loaded), and the manual-control HTTP
response: `none` for a transport error or non-200 status, `some (me, pc)` for
a 200 body whose optional fields are `manual_enabled` and `pump_command`. -/
structure TickInput : Type where
  now : ℚ
  soil : ℚ
  modelProba : ℚ
  pollResp : Option (Option Bool × Option Bool)
deriving DecidableEq, Repr

/-- The per-tick local variables of the loop body that the claims observe. -/
structure TickOutput : Type where
  manual_enabled : Bool
  pump_command_manual : Bool
  proba : ℚ
  final_decision : Bool
  reason : Reason
deriving DecidableEq, Repr

/-- smart_irrigation.py lines 129-141, `get_manual_control_status`: on a 200
response return `data.get("manual_enabled", False), data.get("pump_command",
False)`; on a non-200 status or a request exception return `(False, False)`. -/
def get_manual_control_status (resp : Option (Option Bool × Option Bool)) :
    Bool × Bool :=
  match resp with
  | some d => (d.1.getD false, d.2.getD false)
  | none => (false, false)

/-- smart_irrigation.py lines 177-179: reset the hourly window and runtime
counter when the bucket duration has elapsed since the window start. -/
def hourResetState (cfg : Config) (s : LoopState) (now : ℚ) : LoopState :=
  if now - s.hour_window_start ≥ cfg.HOURLY_BUCKET then
    { s with hour_window_start := now, run_sec_this_hour := 0 }
  else s

/-- smart_irrigation.py lines 200-206: each tick starts from
`manual_enabled = False, pump_command_manual = False` and only a due poll
(`now - last_control_check >= CONTROL_CHECK_INTERVAL`) replaces them with the
fetch result, also updating `last_control_check`. -/
def manualCheck (cfg : Config) (s : LoopState) (now : ℚ)
    (resp : Option (Option Bool × Option Bool)) : (Bool × Bool) × LoopState :=
  if now - s.last_control_check ≥ cfg.CONTROL_CHECK_INTERVAL then
    (get_manual_control_status resp, { s with last_control_check := now })
  else ((false, false), s)

/-- smart_irrigation.py lines 217-233: the probability is the model output
when `MODEL` is truthy, else the constant `0.0`. -/
def scorerProba (cfg : Config) (modelProba : ℚ) : ℚ :=
  if cfg.modelLoaded then modelProba else 0

/-- smart_irrigation.py lines 235-246: `decision_ai = proba >= THRESH`,
`decision_emg = soil <= EMERGENCY_ON_PCT`, then the final-decision
arbitration between manual override, AI and emergency. -/
def arbitrate (manual_enabled pump_command_manual : Bool)
    (proba THRESH soil EMERGENCY_ON_PCT : ℚ) : Bool × Reason :=
  if manual_enabled then
    (pump_command_manual, Reason.manual)
  else
    (decide (proba ≥ THRESH) || decide (soil ≤ EMERGENCY_ON_PCT),
      if proba ≥ THRESH then Reason.ai
      else if soil ≤ EMERGENCY_ON_PCT then Reason.emergency
      else Reason.no)

/-- smart_irrigation.py lines 248-258: the `OFF → ON` branch.  `in_rest` is
`now < rest_until` computed before any update; the transition requires the
pump off, a true final decision, not resting, `MIN_OFF_SEC` since the last
transition, and the hourly runtime (minutes) below `MAX_MIN_PER_HOUR`. -/
def turnOnStep (cfg : Config) (s : LoopState) (now : ℚ)
    (final_decision : Bool) : LoopState :=
  if s.pump_on = false ∧ final_decision = true ∧ ¬ now < s.rest_until ∧
      now - s.last_change ≥ cfg.MIN_OFF_SEC ∧
      s.run_sec_this_hour / 60 < cfg.MAX_MIN_PER_HOUR then
    { s with pump_on := true, on_start := now, last_change := now }
  else s

/-- smart_irrigation.py lines 261-269: the `ON → OFF` branch, with the three
causes (safety cutoff, pulse end, manual OFF command) all gated by
`now - last_change >= MIN_ON_SEC`; on transition `rest_until` becomes
`now + REST_SEC`. -/
def turnOffStep (cfg : Config) (s : LoopState) (now : ℚ)
    (manual_enabled pump_command_manual : Bool) : LoopState :=
  if ((s.pump_on = true ∧ now - s.on_start ≥ cfg.MAX_ON_SEC) ∨
      (s.pump_on = true ∧ now - s.on_start ≥ cfg.BURST_ON_SEC) ∨
      (manual_enabled = true ∧ s.pump_on = true ∧
        pump_command_manual = false)) ∧
      now - s.last_change ≥ cfg.MIN_ON_SEC then
    { s with pump_on := false, last_change := now,
             rest_until := now + cfg.REST_SEC }
  else s

/-- smart_irrigation.py lines 278-279: while the pump is on, the hourly
runtime counter is incremented by one (second), saturating at
`HOURLY_BUCKET`. -/
def runIncrement (cfg : Config) (s : LoopState) : LoopState :=
  if s.pump_on = true then
    { s with
      run_sec_this_hour := min cfg.HOURLY_BUCKET (s.run_sec_this_hour + 1) }
  else s

/-- One full iteration of the control loop (smart_irrigation.py lines
172-298), restricted to the state and outputs the claims are about: hourly
window reset, manual-control poll, scorer, decision arbitration, the pump ON
and OFF branches, and the runtime-counter update, in source order. -/
def step (cfg : Config) (s : LoopState) (inp : TickInput) :
    LoopState × TickOutput :=
  let s1 := hourResetState cfg s inp.now
  let mcp := manualCheck cfg s1 inp.now inp.pollResp
  let proba := scorerProba cfg inp.modelProba
  let fd := arbitrate mcp.1.1 mcp.1.2 proba cfg.THRESH inp.soil
    cfg.EMERGENCY_ON_PCT
  let s5 := runIncrement cfg
    (turnOffStep cfg (turnOnStep cfg mcp.2 inp.now fd.1) inp.now
      mcp.1.1 mcp.1.2)
  (s5, ⟨mcp.1.1, mcp.1.2, proba, fd.1, fd.2⟩)

/-- The state part of one tick. -/
def stepSt (cfg : Config) (s : LoopState) (inp : TickInput) : LoopState :=
  (step cfg s inp).1

/-- Iterating the loop over a list of tick inputs. -/
def runTicks (cfg : Config) (s : LoopState) (l : List TickInput) : LoopState :=
  l.foldl (stepSt cfg) s

/-- smart_irrigation.py lines 83-85, `adc_to_pct` uses `round(x, 1)`:
round to one decimal, i.e. round `10 x` to the nearest integer and divide by
ten.  (For the calibrated references no argument ever falls on an exact tie,
so the tie-breaking direction is irrelevant.) -/
def round1 (q : ℚ) : ℚ :=
  ((round (q * 10) : ℤ) : ℚ) / 10

/-- smart_irrigation.py lines 83-85: clamp the raw ADC value into
`[wet, dry]` and map linearly onto `[0, 100]`, rounded to one decimal, with
defaults `WET = 233`, `DRY = 619` (lines 24-25). -/
def adc_to_pct (v : ℤ) (wet : ℤ := 233) (dry : ℤ := 619) : ℚ :=
  let c := max (min v dry) wet
  round1 (100 * ((dry : ℚ) - (c : ℚ)) / ((dry : ℚ) - (wet : ℚ)))

/-- The JSON payload built by `send_sensor_data` (smart_irrigation.py lines
109-121). -/
structure SensorPayload : Type where
  temperature : ℚ
  humidity : ℚ
  soil_moisture : ℚ
  irrigation_status : Bool
  ai_decision : String
deriving DecidableEq, Repr

/-- smart_irrigation.py lines 109-121: absent temperature/humidity readings
fall back to `25.0` / `50.0`; `ai_decision` is
`"Irrigation required (Reason: {ai_reason})"` when `irrigation_status` is
true and the fixed text `"Irrigation not required"` otherwise. -/
def send_sensor_data (temp hum : Option ℚ) (soil_pct : ℚ)
    (irrigation_status : Bool) (ai_reason : Reason) : SensorPayload :=
  { temperature := temp.getD 25
    humidity := hum.getD 50
    soil_moisture := soil_pct
    irrigation_status := irrigation_status
    ai_decision :=
      if irrigation_status then
        "Irrigation required (Reason: " ++ ai_reason.tag ++ ")"
      else
        "Irrigation not required" }

/-- app.py lines 78-83, the pydantic schema `SensorDataBase` the backend
parses the payload into: the typed fields are taken over unchanged. -/
structure SensorDataBase : Type where
  temperature : ℚ
  humidity : ℚ
  soil_moisture : ℚ
  irrigation_status : Bool
  ai_decision : String
deriving DecidableEq, Repr

/-- Parsing the posted payload into the backend schema (pydantic validation
of app.py lines 78-83): each field is carried over as is. -/
def parseSensorData (p : SensorPayload) : SensorDataBase :=
  ⟨p.temperature, p.humidity, p.soil_moisture, p.irrigation_status,
    p.ai_decision⟩

/-- app.py lines 63-69: the single manual-control row, with its two boolean
columns (the timestamp column plays no role in the claims). -/
structure DBManualControl : Type where
  manual_enabled : Bool
  pump_command : Bool
deriving DecidableEq, Repr

/-- app.py lines 139-147, `get_manual_control`: the database either holds the
`id == 1` row or nothing; when missing, the default row
`{manual_enabled: False, pump_command: False}` is created, committed and
returned.  Returns the row served to the caller and the database state
afterwards. -/
def get_manual_control (db : Option DBManualControl) :
    DBManualControl × Option DBManualControl :=
  match db with
  | some st => (st, some st)
  | none => (⟨false, false⟩, some ⟨false, false⟩)

/-- The configuration when the model artifact is missing (the
`FileNotFoundError` branch of smart_irrigation.py lines 52-55). -/
def cfgF : Config := mkConfig none

/-- The configuration when the model loaded with no `"threshold"` key, so
`THRESH = 0.06`. -/
def cfgM : Config := mkConfig (some none)

/-- A concrete state with the pump on since time 0, used by witnesses. -/
def sOn0 : LoopState := ⟨true, 0, 0, 0, 0, 0, 0⟩

/-- A concrete state with the pump off, all timers at 0, used by witnesses. -/
def sOff0 : LoopState := ⟨false, 0, 0, 0, 0, 0, 0⟩

/-- A concrete state with the pump on and the control poll far in the future,
used by the C7 counterexample trace. -/
def sOnNoPoll : LoopState := ⟨true, 0, 0, 0, 0, 0, 100⟩

/-- A tick at `t = 3` with mid-range soil, no model output, and a failed
manual-control poll. -/
def iPlainTick : TickInput := ⟨3, 50, 0, none⟩

/-- A tick at `t = 3` whose manual-control poll succeeds with
`{manual_enabled: true, pump_command: true}`. -/
def c2TickFetch : TickInput := ⟨3, 50, 0, some (some true, some true)⟩

/-- A tick at `t = 4.5`, too early for the next manual-control poll. -/
def c2TickNoPoll : TickInput := ⟨9 / 2, 50, 0, some (some true, some true)⟩

/-- A tick at `t = 6` whose due manual-control poll fails (transport
error). -/
def c2TickFail : TickInput := ⟨6, 50, 0, none⟩

/-- A tick at `t = 1` with a failed poll, used by the C2 witness. -/
def c2TickEarlyFail : TickInput := ⟨1, 50, 0, none⟩

/-- A tick at `t = 6`: pulse end for a pump on since `t = 0`. -/
def c3TickOff : TickInput := ⟨6, 50, 0, none⟩

/-- A tick at `t = 11` with a high model probability, retriggering the
pump. -/
def c3TickOn : TickInput := ⟨11, 50, 9 / 10, none⟩

/-- A tick at `t = 60`: the safety-cutoff instant for a pump on since
`t = 0`. -/
def c4Tick : TickInput := ⟨60, 50, 0, none⟩

/-- A tick at `t = 1` while the pump is on. -/
def c7Tick1 : TickInput := ⟨1, 50, 0, none⟩

/-- A tick at `t = 3` (two seconds after `c7Tick1`) while the pump is on. -/
def c7Tick2 : TickInput := ⟨3, 50, 0, none⟩

/-- A tick at `t = 6` with dry soil (15 %), a high model probability, and a
successful poll commanding manual OFF. -/
def c8Tick : TickInput := ⟨6, 15, 9 / 10, some (some true, some false)⟩

/-! Preservation lemmas for the individual loop sections -/

lemma hourResetState_pump_on (cfg : Config) (s : LoopState) (now : ℚ) :
    (hourResetState cfg s now).pump_on = s.pump_on := by
  unfold hourResetState; split <;> rfl

lemma hourResetState_last_change (cfg : Config) (s : LoopState) (now : ℚ) :
    (hourResetState cfg s now).last_change = s.last_change := by
  unfold hourResetState; split <;> rfl

lemma hourResetState_on_start (cfg : Config) (s : LoopState) (now : ℚ) :
    (hourResetState cfg s now).on_start = s.on_start := by
  unfold hourResetState; split <;> rfl

lemma hourResetState_rest_until (cfg : Config) (s : LoopState) (now : ℚ) :
    (hourResetState cfg s now).rest_until = s.rest_until := by
  unfold hourResetState; split <;> rfl

lemma hourResetState_control_check (cfg : Config) (s : LoopState) (now : ℚ) :
    (hourResetState cfg s now).last_control_check = s.last_control_check := by
  unfold hourResetState; split <;> rfl

lemma hourResetState_pos (cfg : Config) (s : LoopState) (now : ℚ)
    (h : now - s.hour_window_start ≥ cfg.HOURLY_BUCKET) :
    hourResetState cfg s now =
      { s with hour_window_start := now, run_sec_this_hour := 0 } := by
  unfold hourResetState; rw [if_pos h]

lemma hourResetState_neg (cfg : Config) (s : LoopState) (now : ℚ)
    (h : ¬ now - s.hour_window_start ≥ cfg.HOURLY_BUCKET) :
    hourResetState cfg s now = s := by
  unfold hourResetState; rw [if_neg h]

lemma manualCheck_pump_on (cfg : Config) (s : LoopState) (now : ℚ)
    (resp : Option (Option Bool × Option Bool)) :
    ((manualCheck cfg s now resp).2).pump_on = s.pump_on := by
  unfold manualCheck; split <;> rfl

lemma manualCheck_last_change (cfg : Config) (s : LoopState) (now : ℚ)
    (resp : Option (Option Bool × Option Bool)) :
    ((manualCheck cfg s now resp).2).last_change = s.last_change := by
  unfold manualCheck; split <;> rfl

lemma manualCheck_on_start (cfg : Config) (s : LoopState) (now : ℚ)
    (resp : Option (Option Bool × Option Bool)) :
    ((manualCheck cfg s now resp).2).on_start = s.on_start := by
  unfold manualCheck; split <;> rfl

lemma manualCheck_rest_until (cfg : Config) (s : LoopState) (now : ℚ)
    (resp : Option (Option Bool × Option Bool)) :
    ((manualCheck cfg s now resp).2).rest_until = s.rest_until := by
  unfold manualCheck; split <;> rfl

lemma manualCheck_run_sec (cfg : Config) (s : LoopState) (now : ℚ)
    (resp : Option (Option Bool × Option Bool)) :
    ((manualCheck cfg s now resp).2).run_sec_this_hour =
      s.run_sec_this_hour := by
  unfold manualCheck; split <;> rfl

lemma manualCheck_hour_window (cfg : Config) (s : LoopState) (now : ℚ)
    (resp : Option (Option Bool × Option Bool)) :
    ((manualCheck cfg s now resp).2).hour_window_start =
      s.hour_window_start := by
  unfold manualCheck; split <;> rfl

lemma manualCheck_not_due (cfg : Config) (s : LoopState) (now : ℚ)
    (resp : Option (Option Bool × Option Bool))
    (h : ¬ now - s.last_control_check ≥ cfg.CONTROL_CHECK_INTERVAL) :
    (manualCheck cfg s now resp).1 = (false, false) := by
  unfold manualCheck; rw [if_neg h]

lemma manualCheck_fail (cfg : Config) (s : LoopState) (now : ℚ) :
    (manualCheck cfg s now none).1 = (false, false) := by
  unfold manualCheck; split <;> rfl

/-- If the `OFF → ON` branch does not fire, the state is unchanged; if it
fires, its guard held and the pump/timer fields are set as in lines
255-258. -/
lemma turnOnStep_cases (cfg : Config) (s : LoopState) (now : ℚ) (fd : Bool) :
    turnOnStep cfg s now fd = s ∨
    (turnOnStep cfg s now fd =
        { s with pump_on := true, on_start := now, last_change := now } ∧
      s.pump_on = false ∧ fd = true ∧ ¬ now < s.rest_until ∧
      now - s.last_change ≥ cfg.MIN_OFF_SEC ∧
      s.run_sec_this_hour / 60 < cfg.MAX_MIN_PER_HOUR) := by
  unfold turnOnStep
  by_cases h : s.pump_on = false ∧ fd = true ∧ ¬ now < s.rest_until ∧
      now - s.last_change ≥ cfg.MIN_OFF_SEC ∧
      s.run_sec_this_hour / 60 < cfg.MAX_MIN_PER_HOUR
  · rw [if_pos h]; right; exact ⟨rfl, h⟩
  · rw [if_neg h]; left; rfl

/-- If the `ON → OFF` branch does not fire, the state is unchanged; if it
fires, the pump was on, `MIN_ON_SEC` had elapsed, and the fields are set as
in lines 266-269. -/
lemma turnOffStep_cases (cfg : Config) (s : LoopState) (now : ℚ)
    (me pc : Bool) :
    turnOffStep cfg s now me pc = s ∨
    (turnOffStep cfg s now me pc =
        { s with pump_on := false, last_change := now,
                 rest_until := now + cfg.REST_SEC } ∧
      s.pump_on = true ∧ now - s.last_change ≥ cfg.MIN_ON_SEC) := by
  unfold turnOffStep
  by_cases h : ((s.pump_on = true ∧ now - s.on_start ≥ cfg.MAX_ON_SEC) ∨
      (s.pump_on = true ∧ now - s.on_start ≥ cfg.BURST_ON_SEC) ∨
      (me = true ∧ s.pump_on = true ∧ pc = false)) ∧
      now - s.last_change ≥ cfg.MIN_ON_SEC
  · rw [if_pos h]; right
    refine ⟨rfl, ?_, h.2⟩
    rcases h.1 with ⟨hp, _⟩ | ⟨hp, _⟩ | ⟨_, hp, _⟩ <;> exact hp
  · rw [if_neg h]; left; rfl

lemma turnOffStep_of_off (cfg : Config) (s : LoopState) (now : ℚ)
    (me pc : Bool) (h : s.pump_on = false) :
    turnOffStep cfg s now me pc = s := by
  rcases turnOffStep_cases cfg s now me pc with h1 | ⟨_, h2, _⟩
  · exact h1
  · rw [h] at h2; cases h2

lemma turnOffStep_on_start (cfg : Config) (s : LoopState) (now : ℚ)
    (me pc : Bool) :
    (turnOffStep cfg s now me pc).on_start = s.on_start := by
  rcases turnOffStep_cases cfg s now me pc with h1 | ⟨h1, _⟩ <;> rw [h1]

lemma turnOnStep_run_sec (cfg : Config) (s : LoopState) (now : ℚ)
    (fd : Bool) :
    (turnOnStep cfg s now fd).run_sec_this_hour = s.run_sec_this_hour := by
  rcases turnOnStep_cases cfg s now fd with h1 | ⟨h1, _⟩ <;> rw [h1]

lemma turnOnStep_hour_window (cfg : Config) (s : LoopState) (now : ℚ)
    (fd : Bool) :
    (turnOnStep cfg s now fd).hour_window_start = s.hour_window_start := by
  rcases turnOnStep_cases cfg s now fd with h1 | ⟨h1, _⟩ <;> rw [h1]

lemma turnOffStep_run_sec (cfg : Config) (s : LoopState) (now : ℚ)
    (me pc : Bool) :
    (turnOffStep cfg s now me pc).run_sec_this_hour =
      s.run_sec_this_hour := by
  rcases turnOffStep_cases cfg s now me pc with h1 | ⟨h1, _⟩ <;> rw [h1]

lemma turnOffStep_hour_window (cfg : Config) (s : LoopState) (now : ℚ)
    (me pc : Bool) :
    (turnOffStep cfg s now me pc).hour_window_start =
      s.hour_window_start := by
  rcases turnOffStep_cases cfg s now me pc with h1 | ⟨h1, _⟩ <;> rw [h1]

lemma runIncrement_hour_window (cfg : Config) (s : LoopState) :
    (runIncrement cfg s).hour_window_start = s.hour_window_start := by
  unfold runIncrement; split <;> rfl

/-- The runtime-counter update of lines 278-279 as an equation. -/
lemma runIncrement_run_sec (cfg : Config) (s : LoopState) :
    (runIncrement cfg s).run_sec_this_hour =
      if s.pump_on = true then
        min cfg.HOURLY_BUCKET (s.run_sec_this_hour + 1)
      else s.run_sec_this_hour := by
  unfold runIncrement
  by_cases h : s.pump_on = true
  · rw [if_pos h, if_pos h]
  · rw [if_neg h, if_neg h]

lemma runIncrement_pump_on (cfg : Config) (s : LoopState) :
    (runIncrement cfg s).pump_on = s.pump_on := by
  unfold runIncrement; split <;> rfl

lemma runIncrement_last_change (cfg : Config) (s : LoopState) :
    (runIncrement cfg s).last_change = s.last_change := by
  unfold runIncrement; split <;> rfl

lemma runIncrement_on_start (cfg : Config) (s : LoopState) :
    (runIncrement cfg s).on_start = s.on_start := by
  unfold runIncrement; split <;> rfl

lemma runIncrement_rest_until (cfg : Config) (s : LoopState) :
    (runIncrement cfg s).rest_until = s.rest_until := by
  unfold runIncrement; split <;> rfl

/-- Unfolding of the state component of `step` into its five stages. -/
lemma stepSt_eq (cfg : Config) (s : LoopState) (inp : TickInput) :
    stepSt cfg s inp =
      runIncrement cfg
        (turnOffStep cfg
          (turnOnStep cfg
            ((manualCheck cfg (hourResetState cfg s inp.now) inp.now
                inp.pollResp).2)
            inp.now
            (arbitrate
              ((manualCheck cfg (hourResetState cfg s inp.now) inp.now
                  inp.pollResp).1).1
              ((manualCheck cfg (hourResetState cfg s inp.now) inp.now
                  inp.pollResp).1).2
              (scorerProba cfg inp.modelProba) cfg.THRESH inp.soil
              cfg.EMERGENCY_ON_PCT).1)
          inp.now
          ((manualCheck cfg (hourResetState cfg s inp.now) inp.now
              inp.pollResp).1).1
          ((manualCheck cfg (hourResetState cfg s inp.now) inp.now
              inp.pollResp).1).2) := rfl

/-! Single-tick transition lemmas -/

/-- If a tick takes the pump from `OFF` to `ON`, the `OFF → ON` guard of
lines 253-254 held: `MIN_OFF_SEC` since the last transition, not resting,
and the (fresh-window) hourly runtime below the cap. -/
lemma stepSt_off_to_on (cfg : Config) (s : LoopState) (inp : TickInput)
    (h0 : s.pump_on = false) (h1 : (stepSt cfg s inp).pump_on = true) :
    inp.now - s.last_change ≥ cfg.MIN_OFF_SEC ∧ ¬ inp.now < s.rest_until ∧
    (hourResetState cfg s inp.now).run_sec_this_hour / 60 <
      cfg.MAX_MIN_PER_HOUR := by
  rw [stepSt_eq] at h1
  set s2 := (manualCheck cfg (hourResetState cfg s inp.now) inp.now
    inp.pollResp).2 with hs2
  have h2p : s2.pump_on = false := by
    rw [hs2, manualCheck_pump_on, hourResetState_pump_on]; exact h0
  rcases turnOnStep_cases cfg s2 inp.now
      (arbitrate
        ((manualCheck cfg (hourResetState cfg s inp.now) inp.now
            inp.pollResp).1).1
        ((manualCheck cfg (hourResetState cfg s inp.now) inp.now
            inp.pollResp).1).2
        (scorerProba cfg inp.modelProba) cfg.THRESH inp.soil
        cfg.EMERGENCY_ON_PCT).1 with hc | ⟨_, _, _, hrest, hmoff, hcap⟩
  · rw [hc, turnOffStep_of_off cfg s2 inp.now _ _ h2p, runIncrement_pump_on,
      h2p] at h1
    cases h1
  · refine ⟨?_, ?_, ?_⟩
    · rw [hs2, manualCheck_last_change, hourResetState_last_change] at hmoff
      exact hmoff
    · rw [hs2, manualCheck_rest_until, hourResetState_rest_until] at hrest
      exact hrest
    · rw [hs2, manualCheck_run_sec] at hcap
      exact hcap

/-- If a tick takes the pump from `ON` to `OFF`, the transition stamped
`last_change = now` (line 268). -/
lemma stepSt_on_to_off_last_change (cfg : Config) (s : LoopState)
    (inp : TickInput) (h0 : s.pump_on = true)
    (h1 : (stepSt cfg s inp).pump_on = false) :
    (stepSt cfg s inp).last_change = inp.now := by
  rw [stepSt_eq] at h1 ⊢
  set s2 := (manualCheck cfg (hourResetState cfg s inp.now) inp.now
    inp.pollResp).2 with hs2
  set fd := (arbitrate
    ((manualCheck cfg (hourResetState cfg s inp.now) inp.now
        inp.pollResp).1).1
    ((manualCheck cfg (hourResetState cfg s inp.now) inp.now
        inp.pollResp).1).2
    (scorerProba cfg inp.modelProba) cfg.THRESH inp.soil
    cfg.EMERGENCY_ON_PCT).1 with hfd
  have h2p : s2.pump_on = true := by
    rw [hs2, manualCheck_pump_on, hourResetState_pump_on]; exact h0
  have h3 : turnOnStep cfg s2 inp.now fd = s2 := by
    rcases turnOnStep_cases cfg s2 inp.now fd with hc | ⟨_, hc2, _⟩
    · exact hc
    · rw [h2p] at hc2; cases hc2
  rw [h3] at h1 ⊢
  rcases turnOffStep_cases cfg s2 inp.now
      ((manualCheck cfg (hourResetState cfg s inp.now) inp.now
          inp.pollResp).1).1
      ((manualCheck cfg (hourResetState cfg s inp.now) inp.now
          inp.pollResp).1).2 with hc | ⟨hc, _, _⟩
  · rw [hc, runIncrement_pump_on, h2p] at h1; cases h1
  · rw [hc, runIncrement_last_change]

/-- A tick that finds the pump off and leaves it off changes neither
`last_change` nor `rest_until` (`MIN_ON_SEC > 0` rules out an `ON` and
`OFF` transition within the same tick). -/
lemma stepSt_off_stays (cfg : Config) (hMinOn : 0 < cfg.MIN_ON_SEC)
    (s : LoopState) (inp : TickInput) (h0 : s.pump_on = false)
    (h1 : (stepSt cfg s inp).pump_on = false) :
    (stepSt cfg s inp).last_change = s.last_change ∧
    (stepSt cfg s inp).rest_until = s.rest_until := by
  rw [stepSt_eq] at h1 ⊢
  set s2 := (manualCheck cfg (hourResetState cfg s inp.now) inp.now
    inp.pollResp).2 with hs2
  set fd := (arbitrate
    ((manualCheck cfg (hourResetState cfg s inp.now) inp.now
        inp.pollResp).1).1
    ((manualCheck cfg (hourResetState cfg s inp.now) inp.now
        inp.pollResp).1).2
    (scorerProba cfg inp.modelProba) cfg.THRESH inp.soil
    cfg.EMERGENCY_ON_PCT).1 with hfd
  have h2p : s2.pump_on = false := by
    rw [hs2, manualCheck_pump_on, hourResetState_pump_on]; exact h0
  have h3 : turnOnStep cfg s2 inp.now fd = s2 := by
    rcases turnOnStep_cases cfg s2 inp.now fd with hc | ⟨hc, _⟩
    · exact hc
    · exfalso
      -- the pump turned on this tick; with `MIN_ON_SEC > 0` the OFF branch
      -- cannot fire at the same instant, so the tick would end with the
      -- pump on, contradicting `h1`
      rw [hc] at h1
      rcases turnOffStep_cases cfg
          { s2 with pump_on := true, on_start := inp.now, last_change := inp.now }
          inp.now
          ((manualCheck cfg (hourResetState cfg s inp.now) inp.now
              inp.pollResp).1).1
          ((manualCheck cfg (hourResetState cfg s inp.now) inp.now
              inp.pollResp).1).2 with hd | ⟨_, _, hd2⟩
      · rw [hd, runIncrement_pump_on] at h1
        cases h1
      · have h5 : (0 : ℚ) ≥ cfg.MIN_ON_SEC := by simpa using hd2
        exact absurd h5 (not_le.mpr hMinOn)
  rw [h3, turnOffStep_of_off cfg s2 inp.now _ _ h2p] at h1 ⊢
  have h4 : runIncrement cfg s2 = s2 := by
    unfold runIncrement
    rw [if_neg]
    rw [h2p]; simp
  rw [h4, hs2, manualCheck_last_change, hourResetState_last_change,
    manualCheck_rest_until, hourResetState_rest_until]
  exact ⟨rfl, rfl⟩

/-- Over a run of ticks throughout which the pump stays off, `last_change`
keeps the value it had when the run started. -/
lemma runTicks_off_last_change (cfg : Config) (hMinOn : 0 < cfg.MIN_ON_SEC)
    (s : LoopState) (h0 : s.pump_on = false) (l : List TickInput)
    (hl : ∀ p, p <+: l → (runTicks cfg s p).pump_on = false) :
    (runTicks cfg s l).last_change = s.last_change := by
  induction l generalizing s with
  | nil => rfl
  | cons x xs ih =>
    have hx : (stepSt cfg s x).pump_on = false := by
      have h := hl [x] ⟨xs, rfl⟩
      simpa [runTicks] using h
    have hxs : ∀ p, p <+: xs →
        (runTicks cfg (stepSt cfg s x) p).pump_on = false := by
      intro p hp
      obtain ⟨t, ht⟩ := hp
      have h := hl (x :: p) ⟨t, by rw [List.cons_append, ht]⟩
      simpa [runTicks] using h
    have hstep := stepSt_off_stays cfg hMinOn s x h0 hx
    calc (runTicks cfg s (x :: xs)).last_change
        = (runTicks cfg (stepSt cfg s x) xs).last_change := by
          simp [runTicks]
      _ = (stepSt cfg s x).last_change := ih (stepSt cfg s x) hx hxs
      _ = s.last_change := hstep.1

/-- The safety cutoff: with the pump on, `MAX_ON_SEC` past `on_start` and
`MIN_ON_SEC` past the last transition, the OFF branch fires. -/
lemma turnOffStep_safety (cfg : Config) (s : LoopState) (now : ℚ)
    (me pc : Bool) (hp : s.pump_on = true)
    (hmax : now - s.on_start ≥ cfg.MAX_ON_SEC)
    (hmin : now - s.last_change ≥ cfg.MIN_ON_SEC) :
    (turnOffStep cfg s now me pc).pump_on = false := by
  unfold turnOffStep
  rw [if_pos ⟨Or.inl ⟨hp, hmax⟩, hmin⟩]

/-- The manual OFF command: with manual mode enabled commanding OFF, the
pump on and `MIN_ON_SEC` elapsed, the OFF branch fires. -/
lemma turnOffStep_manual (cfg : Config) (s : LoopState) (now : ℚ)
    (hp : s.pump_on = true)
    (hmin : now - s.last_change ≥ cfg.MIN_ON_SEC) :
    (turnOffStep cfg s now true false).pump_on = false := by
  unfold turnOffStep
  rw [if_pos ⟨Or.inr (Or.inr ⟨rfl, hp, rfl⟩), hmin⟩]

/-- If the OFF branch leaves the pump on, the pump was already on and either
the safety ceiling or the minimum-on time had not yet been reached. -/
lemma turnOffStep_pump_true (cfg : Config) (s : LoopState) (now : ℚ)
    (me pc : Bool) (h : (turnOffStep cfg s now me pc).pump_on = true) :
    s.pump_on = true ∧ (now - s.on_start < cfg.MAX_ON_SEC ∨
      now - s.last_change < cfg.MIN_ON_SEC) := by
  unfold turnOffStep at h
  by_cases hg : ((s.pump_on = true ∧ now - s.on_start ≥ cfg.MAX_ON_SEC) ∨
      (s.pump_on = true ∧ now - s.on_start ≥ cfg.BURST_ON_SEC) ∨
      (me = true ∧ s.pump_on = true ∧ pc = false)) ∧
      now - s.last_change ≥ cfg.MIN_ON_SEC
  · rw [if_pos hg] at h; cases h
  · rw [if_neg hg] at h
    refine ⟨h, ?_⟩
    rcases not_and_or.mp hg with hg1 | hg2
    · left
      by_contra hcon
      exact hg1 (Or.inl ⟨h, not_lt.mp hcon⟩)
    · right
      exact not_le.mp hg2

/-! Claim theorems -/

/-- C1 (code bug exhibit): when the model artifact is missing, the process
keeps running with the fallback scorer, which yields probability `0.0` on
every tick — but because the fallback also sets `THRESH = 0.0` and the AI
trigger is the non-strict comparison `proba >= THRESH` (line 235),
`0.0 >= 0.0` holds, so the AI branch fires on every automatic tick (reason
`"AI"`, final decision true) and even turns the pump on with moist soil —
the exact opposite of the claimed unreachability of AI-triggered
irrigation, and of the comment in the source itself "Use 0.0 threshold to default
to the Emergency/Manual modes only" (line 55). -/
theorem c1_fallback_ai_branch_fires :
    (∀ p : ℚ, scorerProba cfgF p = 0) ∧
    cfgF.THRESH = 0 ∧
    (step cfgF sOff0 iPlainTick).2.proba = 0 ∧
    iPlainTick.soil > cfgF.EMERGENCY_ON_PCT ∧
    (step cfgF sOff0 iPlainTick).2.reason = Reason.ai ∧
    (step cfgF sOff0 iPlainTick).2.final_decision = true ∧
    (step cfgF sOff0 iPlainTick).1.pump_on = true := by
  refine ⟨?_, ?_, ?_, ?_, ?_, ?_, ?_⟩
  · intro p
    simp [scorerProba, cfgF, mkConfig, loadScorer]
  · exact of_decide_eq_true (by with_unfolding_all rfl)
  · exact of_decide_eq_true (by with_unfolding_all rfl)
  · exact of_decide_eq_true (by with_unfolding_all rfl)
  · exact of_decide_eq_true (by with_unfolding_all rfl)
  · exact of_decide_eq_true (by with_unfolding_all rfl)
  · exact of_decide_eq_true (by with_unfolding_all rfl)

/-- C2 (counterexample): after a successful poll fetched
`{enabled: true, commanded_pump: true}` at `t = 3`, both a tick with no poll
due (`t = 4.5`) and a tick with a due but failed poll (`t = 6`) show the
decision logic the reset state `{false, false}`, not the last successfully
fetched `{true, true}` — the loop recomputes the manual flags from scratch
on every tick (lines 200-206), keeping no memory of earlier fetches. -/
theorem c2_counterexample :
    (step cfgM sOff0 c2TickFetch).2.manual_enabled = true ∧
    (step cfgM sOff0 c2TickFetch).2.pump_command_manual = true ∧
    (step cfgM (step cfgM sOff0 c2TickFetch).1 c2TickNoPoll).2.manual_enabled
        = false ∧
    (step cfgM (step cfgM sOff0 c2TickFetch).1
        c2TickNoPoll).2.pump_command_manual = false ∧
    (step cfgM (step cfgM sOff0 c2TickFetch).1 c2TickFail).2.manual_enabled
        = false ∧
    (step cfgM (step cfgM sOff0 c2TickFetch).1
        c2TickFail).2.pump_command_manual = false :=
  of_decide_eq_true (by with_unfolding_all rfl)

/-- C2 (amended): the manual-control state seen by the decision logic is
`{enabled: false, commanded_pump: false}` on every tick on which the poll is
not due or fails, irrespective of any earlier successful fetch; a fetched
state is only visible on the very tick of its successful poll. -/
theorem c2_failed_poll_resets (cfg : Config) (s : LoopState)
    (inp : TickInput)
    (h : ¬ inp.now - s.last_control_check ≥ cfg.CONTROL_CHECK_INTERVAL ∨
      inp.pollResp = none) :
    (step cfg s inp).2.manual_enabled = false ∧
    (step cfg s inp).2.pump_command_manual = false := by
  have hmc : (manualCheck cfg (hourResetState cfg s inp.now) inp.now
      inp.pollResp).1 = (false, false) := by
    rcases h with h | h
    · apply manualCheck_not_due
      rw [hourResetState_control_check]
      exact h
    · rw [h]
      exact manualCheck_fail cfg (hourResetState cfg s inp.now) inp.now
  constructor
  · show ((manualCheck cfg (hourResetState cfg s inp.now) inp.now
      inp.pollResp).1).1 = false
    rw [hmc]
  · show ((manualCheck cfg (hourResetState cfg s inp.now) inp.now
      inp.pollResp).1).2 = false
    rw [hmc]

/-- Witness for the amended C2 theorem at a concrete failed-poll tick. -/
theorem c2_failed_poll_resets_witness :
    (step cfgM sOff0 c2TickEarlyFail).2.manual_enabled = false ∧
    (step cfgM sOff0 c2TickEarlyFail).2.pump_command_manual = false :=
  c2_failed_poll_resets cfgM sOff0 c2TickEarlyFail (Or.inr rfl)

/-- C5: the final-decision arbitration (lines 235-246) is the pure function
`arbitrate` of `(probability, threshold, soil_pct, emergency_threshold,
manual_state)`: with manual mode enabled the result is the commanded pump
state with reason `MANUAL` (overriding AI and emergency, including a
commanded OFF); otherwise the decision is `ai_trigger OR emergency_trigger`
with reason `AI` when `proba >= THRESH`, else `EMERGENCY` when
`soil <= EMERGENCY_ON_PCT`, else `NO`; and the three concrete spec
examples evaluate as claimed. -/
theorem c5_arbitration :
    (∀ (cmd : Bool) (p t soil e : ℚ),
      arbitrate true cmd p t soil e = (cmd, Reason.manual)) ∧
    (∀ (cmd : Bool) (p t soil e : ℚ),
      ((arbitrate false cmd p t soil e).1 = true ↔ p ≥ t ∨ soil ≤ e) ∧
      ((arbitrate false cmd p t soil e).2 = Reason.ai ↔ p ≥ t) ∧
      ((arbitrate false cmd p t soil e).2 = Reason.emergency ↔
        ¬ p ≥ t ∧ soil ≤ e) ∧
      ((arbitrate false cmd p t soil e).2 = Reason.no ↔
        ¬ p ≥ t ∧ ¬ soil ≤ e)) ∧
    arbitrate false false (9 / 10) (6 / 100) 50 20 = (true, Reason.ai) ∧
    arbitrate false false 0 (6 / 100) 15 20 = (true, Reason.emergency) ∧
    arbitrate false false 0 (6 / 100) 50 20 = (false, Reason.no) ∧
    arbitrate true false 0 (6 / 100) 15 20 = (false, Reason.manual) := by
  refine ⟨fun cmd p t soil e => rfl, ?_, ?_, ?_, ?_, ?_⟩
  · intro cmd p t soil e
    by_cases hai : p ≥ t <;> by_cases hemg : soil ≤ e <;>
      simp [arbitrate, hai, hemg]
  · exact of_decide_eq_true (by with_unfolding_all rfl)
  · exact of_decide_eq_true (by with_unfolding_all rfl)
  · exact of_decide_eq_true (by with_unfolding_all rfl)
  · exact of_decide_eq_true (by with_unfolding_all rfl)

/-- Witness for C5 instantiating the manual-override clause: an operator OFF
command wins over an emergency-dry soil reading. -/
theorem c5_arbitration_witness :
    arbitrate true false (9 / 10) (6 / 100) 15 20 =
      (false, Reason.manual) :=
  c5_arbitration.1 false (9 / 10) (6 / 100) 15 20

/-- C9 (counterexample): the payload built for `irrigation_status = false`
carries the fixed text `"Irrigation not required"` (line 113), which does
not contain the reason tag — here `"AI"` — so the round trip does not, in
general, yield an `ai_decision` containing the original reason tag, even
though `irrigation_status` itself is preserved. -/
theorem c9_counterexample :
    (parseSensorData
        (send_sensor_data none none 50 false Reason.ai)).irrigation_status
      = false ∧
    ¬ Reason.ai.tag.data <:+:
      (parseSensorData
        (send_sensor_data none none 50 false Reason.ai)).ai_decision.data :=
  ⟨rfl, by decide⟩

/-- C9 (amended): serializing a decision into the reporting payload and
parsing it back preserves `irrigation_status` exactly, and — whenever
`irrigation_status` is true — yields an `ai_decision` string containing the
original reason tag; for a false status the string is the fixed
`"Irrigation not required"`. -/
theorem c9_roundtrip (temp hum : Option ℚ) (soil : ℚ) (st : Bool)
    (r : Reason) :
    (parseSensorData
        (send_sensor_data temp hum soil st r)).irrigation_status = st ∧
    (st = true → r.tag.data <:+:
      (parseSensorData
        (send_sensor_data temp hum soil st r)).ai_decision.data) := by
  refine ⟨rfl, ?_⟩
  intro h
  subst h
  have hs : (parseSensorData
      (send_sensor_data temp hum soil true r)).ai_decision =
      "Irrigation required (Reason: " ++ r.tag ++ ")" := rfl
  rw [hs]
  cases r <;> decide

/-- Witness for the amended C9 theorem at a concrete true-status record. -/
theorem c9_roundtrip_witness :
    Reason.emergency.tag.data <:+:
      (parseSensorData
        (send_sensor_data none none 50 true
          Reason.emergency)).ai_decision.data :=
  (c9_roundtrip none none 50 true Reason.emergency).2 rfl

/-- C10: `get_manual_control` (app.py lines 139-147) never fails for lack of
a record: it returns the stored row when present, and on a fresh database
creates, commits and returns the default
`{manual_enabled: false, pump_command: false}` — so a fresh deployment
always reports automatic mode with the pump commanded off. -/
theorem c10_get_manual_control (db : Option DBManualControl) :
    get_manual_control db =
      (db.getD ⟨false, false⟩, some (db.getD ⟨false, false⟩)) := by
  cases db <;> rfl

lemma round1_mono {a b : ℚ} (h : a ≤ b) : round1 a ≤ round1 b := by
  unfold round1
  have h1 : round (a * 10) ≤ round (b * 10) := by
    rw [round_eq, round_eq]
    exact Int.floor_le_floor (by linarith)
  have h2 : ((round (a * 10) : ℤ) : ℚ) ≤ ((round (b * 10) : ℤ) : ℚ) :=
    Int.cast_le.mpr h1
  exact (div_le_div_iff_of_pos_right (by norm_num : (0 : ℚ) < 10)).mpr h2

lemma round1_nonneg {q : ℚ} (h : 0 ≤ q) : 0 ≤ round1 q := by
  unfold round1
  apply div_nonneg _ (by norm_num)
  have h1 : (0 : ℤ) ≤ round (q * 10) := by
    rw [round_eq]
    apply Int.le_floor.mpr
    push_cast
    linarith
  exact_mod_cast h1

lemma round1_le_100 {q : ℚ} (h : q ≤ 100) : round1 q ≤ 100 := by
  unfold round1
  rw [div_le_iff₀ (by norm_num : (0 : ℚ) < 10)]
  have h1 : round (q * 10) ≤ 1000 := by
    rw [round_eq]
    have h2 : ⌊q * 10 + 1 / 2⌋ < 1001 := by
      apply Int.floor_lt.mpr
      push_cast
      linarith
    omega
  calc ((round (q * 10) : ℤ) : ℚ) ≤ ((1000 : ℤ) : ℚ) := Int.cast_le.mpr h1
    _ = 100 * 10 := by norm_num

/-- C6: the soil-percentage mapping `adc_to_pct` with `wet = 233`,
`dry = 619` sends raw 233 to 100.0, raw 619 to 0.0, raw 426 to exactly
50.0; every raw ADC integer lands in `[0, 100]` (values outside the
calibrated range are clamped first); and the mapping is monotonically
non-increasing in the raw value. -/
theorem c6_adc_to_pct :
    adc_to_pct 233 = 100 ∧ adc_to_pct 619 = 0 ∧ adc_to_pct 426 = 50 ∧
    (∀ v : ℤ, 0 ≤ adc_to_pct v ∧ adc_to_pct v ≤ 100) ∧
    (∀ v w : ℤ, v ≤ w → adc_to_pct w ≤ adc_to_pct v) := by
  have hdef : ∀ v : ℤ, adc_to_pct v =
      round1 (100 * (((619 : ℤ) : ℚ) - ((max (min v 619) 233 : ℤ) : ℚ)) /
        (((619 : ℤ) : ℚ) - ((233 : ℤ) : ℚ))) := fun v => rfl
  refine ⟨of_decide_eq_true (by with_unfolding_all rfl),
    of_decide_eq_true (by with_unfolding_all rfl),
    of_decide_eq_true (by with_unfolding_all rfl), ?_, ?_⟩
  · intro v
    have hc1 : (233 : ℤ) ≤ max (min v 619) 233 := le_max_right _ _
    have hc2 : max (min v 619) 233 ≤ 619 :=
      max_le (min_le_right _ _) (by norm_num)
    have hq1 : ((233 : ℤ) : ℚ) ≤ ((max (min v 619) 233 : ℤ) : ℚ) :=
      Int.cast_le.mpr hc1
    have hq2 : ((max (min v 619) 233 : ℤ) : ℚ) ≤ ((619 : ℤ) : ℚ) :=
      Int.cast_le.mpr hc2
    rw [hdef v]
    constructor
    · apply round1_nonneg
      apply div_nonneg _ (by push_cast; norm_num)
      push_cast at hq2 ⊢
      linarith
    · apply round1_le_100
      rw [div_le_iff₀ (by push_cast; norm_num)]
      push_cast at hq1 ⊢
      linarith
  · intro v w hvw
    have hcc : max (min v 619) 233 ≤ max (min w 619) 233 :=
      max_le_max (min_le_min hvw le_rfl) le_rfl
    have hq : ((max (min v 619) 233 : ℤ) : ℚ) ≤
        ((max (min w 619) 233 : ℤ) : ℚ) := Int.cast_le.mpr hcc
    rw [hdef v, hdef w]
    apply round1_mono
    rw [div_le_div_iff₀ (by push_cast; norm_num) (by push_cast; norm_num)]
    push_cast at hq ⊢
    nlinarith

/-- Witness for the C6 monotonicity clause at raw values 300 and 500. -/
theorem c6_adc_to_pct_witness :
    adc_to_pct 500 ≤ adc_to_pct 300 :=
  c6_adc_to_pct.2.2.2.2 300 500 (by decide)

/-- C3: in any trace where a tick takes the pump `ON → OFF`, the pump then
stays off for a run of ticks, and a later tick takes it `OFF → ON`, the new
`OFF → ON` transition happens at least `MIN_OFF_SEC` after the prior
`ON → OFF` transition; moreover at the transition instant the rest period
had expired (`now >= resting_until`) and the hourly runtime was still below
the hourly cap — an `OFF → ON` transition is impossible while resting or
once the cap is reached. -/
theorem c3_min_off_spacing (cfg : Config) (hMinOn : 0 < cfg.MIN_ON_SEC)
    (s : LoopState) (iOff : TickInput) (mids : List TickInput)
    (iOn : TickInput) (hOn : s.pump_on = true)
    (hOff : (stepSt cfg s iOff).pump_on = false)
    (hmid : ∀ p, p <+: mids →
      (runTicks cfg (stepSt cfg s iOff) p).pump_on = false)
    (hOn2 : (stepSt cfg (runTicks cfg (stepSt cfg s iOff) mids)
      iOn).pump_on = true) :
    iOn.now - iOff.now ≥ cfg.MIN_OFF_SEC ∧
    ¬ iOn.now < (runTicks cfg (stepSt cfg s iOff) mids).rest_until ∧
    (hourResetState cfg (runTicks cfg (stepSt cfg s iOff) mids)
        iOn.now).run_sec_this_hour / 60 < cfg.MAX_MIN_PER_HOUR := by
  have hlcOff : (stepSt cfg s iOff).last_change = iOff.now :=
    stepSt_on_to_off_last_change cfg s iOff hOn hOff
  have hMidOff : (runTicks cfg (stepSt cfg s iOff) mids).pump_on = false := by
    have h := hmid mids ⟨[], List.append_nil mids⟩
    exact h
  have hlcMid : (runTicks cfg (stepSt cfg s iOff) mids).last_change =
      (stepSt cfg s iOff).last_change :=
    runTicks_off_last_change cfg hMinOn (stepSt cfg s iOff) hOff mids hmid
  have h := stepSt_off_to_on cfg (runTicks cfg (stepSt cfg s iOff) mids)
    iOn hMidOff hOn2
  refine ⟨?_, h.2.1, h.2.2⟩
  rw [hlcMid, hlcOff] at h
  exact h.1

/-- Witness for C3 on a concrete trace: pulse-end `ON → OFF` at `t = 6`,
then an immediate `OFF → ON` retrigger at `t = 11` (rest expired at 11),
five seconds later — above `MIN_OFF_SEC = 3`. -/
theorem c3_min_off_spacing_witness :
    c3TickOn.now - c3TickOff.now ≥ cfgM.MIN_OFF_SEC ∧
    ¬ c3TickOn.now <
      (runTicks cfgM (stepSt cfgM sOn0 c3TickOff) []).rest_until ∧
    (hourResetState cfgM (runTicks cfgM (stepSt cfgM sOn0 c3TickOff) [])
        c3TickOn.now).run_sec_this_hour / 60 < cfgM.MAX_MIN_PER_HOUR :=
  c3_min_off_spacing cfgM (of_decide_eq_true (by with_unfolding_all rfl))
    sOn0 c3TickOff [] c3TickOn rfl
    (of_decide_eq_true (by with_unfolding_all rfl))
    (fun p hp => by
      obtain ⟨t, ht⟩ := hp
      obtain ⟨hp0, -⟩ := List.append_eq_nil.mp ht
      subst hp0
      exact of_decide_eq_true (by with_unfolding_all rfl))
    (of_decide_eq_true (by with_unfolding_all rfl))

/-- C4: (a) whenever a tick ends with the pump on, either `MAX_ON_SEC` has
not yet elapsed since `on_start` or `MIN_ON_SEC` has not yet elapsed since
the last transition (the documented §4.5 edge case — the only way to exceed
the ceiling); (b) on any tick at which the pump is on with both
`MAX_ON_SEC` (since `on_start`) and `MIN_ON_SEC` (since the last
transition) elapsed, the safety cutoff turns the pump off within that very
tick. -/
theorem c4_safety_cutoff (cfg : Config) (s : LoopState) (inp : TickInput) :
    ((stepSt cfg s inp).pump_on = true →
      inp.now - (stepSt cfg s inp).on_start < cfg.MAX_ON_SEC ∨
      inp.now - (stepSt cfg s inp).last_change < cfg.MIN_ON_SEC) ∧
    (s.pump_on = true → inp.now - s.on_start ≥ cfg.MAX_ON_SEC →
      inp.now - s.last_change ≥ cfg.MIN_ON_SEC →
      (stepSt cfg s inp).pump_on = false) := by
  constructor
  · intro h
    rw [stepSt_eq] at h ⊢
    set s3 := turnOnStep cfg
      ((manualCheck cfg (hourResetState cfg s inp.now) inp.now
          inp.pollResp).2) inp.now
      (arbitrate
        ((manualCheck cfg (hourResetState cfg s inp.now) inp.now
            inp.pollResp).1).1
        ((manualCheck cfg (hourResetState cfg s inp.now) inp.now
            inp.pollResp).1).2
        (scorerProba cfg inp.modelProba) cfg.THRESH inp.soil
        cfg.EMERGENCY_ON_PCT).1 with hs3
    rw [runIncrement_pump_on] at h
    have hb := turnOffStep_pump_true cfg s3 inp.now _ _ h
    rcases turnOffStep_cases cfg s3 inp.now
        ((manualCheck cfg (hourResetState cfg s inp.now) inp.now
            inp.pollResp).1).1
        ((manualCheck cfg (hourResetState cfg s inp.now) inp.now
            inp.pollResp).1).2 with hc | ⟨hc, _, _⟩
    · rw [hc, runIncrement_on_start, runIncrement_last_change]
      exact hb.2
    · rw [hc] at h
      simp at h
  · intro hp hmax hmin
    rw [stepSt_eq]
    have hp2 : ((manualCheck cfg (hourResetState cfg s inp.now) inp.now
        inp.pollResp).2).pump_on = true := by
      rw [manualCheck_pump_on, hourResetState_pump_on]; exact hp
    have h3 : turnOnStep cfg
        ((manualCheck cfg (hourResetState cfg s inp.now) inp.now
            inp.pollResp).2) inp.now
        (arbitrate
          ((manualCheck cfg (hourResetState cfg s inp.now) inp.now
              inp.pollResp).1).1
          ((manualCheck cfg (hourResetState cfg s inp.now) inp.now
              inp.pollResp).1).2
          (scorerProba cfg inp.modelProba) cfg.THRESH inp.soil
          cfg.EMERGENCY_ON_PCT).1 =
        (manualCheck cfg (hourResetState cfg s inp.now) inp.now
            inp.pollResp).2 := by
      rcases turnOnStep_cases cfg
          ((manualCheck cfg (hourResetState cfg s inp.now) inp.now
              inp.pollResp).2) inp.now _ with hc | ⟨_, hc2, _⟩
      · exact hc
      · rw [hp2] at hc2; cases hc2
    rw [h3, runIncrement_pump_on]
    apply turnOffStep_safety
    · exact hp2
    · rw [manualCheck_on_start, hourResetState_on_start]; exact hmax
    · rw [manualCheck_last_change, hourResetState_last_change]; exact hmin

/-- Witness for C4 clause (b): a pump on since `t = 0` is cut off at the
tick at `t = 60 = MAX_ON_SEC`. -/
theorem c4_safety_cutoff_witness :
    (stepSt cfgM sOn0 c4Tick).pump_on = false :=
  (c4_safety_cutoff cfgM sOn0 c4Tick).2 rfl
    (of_decide_eq_true (by with_unfolding_all rfl))
    (of_decide_eq_true (by with_unfolding_all rfl))

/-- C7 (counterexample): with the pump on continuously, a tick at `t = 1`
and the next at `t = 3` (elapsed tick duration 2 s) leave the counter at 1
and then 2: the code adds exactly 1 per tick (line 279), not the elapsed
tick duration, which would have given `1 + 2 = 3`. -/
theorem c7_counterexample :
    (runTicks cfgM sOnNoPoll [c7Tick1]).run_sec_this_hour = 1 ∧
    (runTicks cfgM sOnNoPoll [c7Tick1, c7Tick2]).pump_on = true ∧
    (runTicks cfgM sOnNoPoll [c7Tick1, c7Tick2]).run_sec_this_hour = 2 ∧
    c7Tick2.now - c7Tick1.now = 2 ∧
    (2 : ℚ) ≠ 1 + 2 :=
  of_decide_eq_true (by with_unfolding_all rfl)

/-- C7 (amended): on every tick the pump ends on, the hourly counter is
incremented by exactly 1 (one nominal second per tick), saturating at
`HOURLY_BUCKET`; on a tick it ends off the counter is unchanged (beyond the
window reset); and both the counter and the window start are reset whenever
the bucket duration has elapsed since the last reset. -/
theorem c7_hourly_counter (cfg : Config) (s : LoopState) (inp : TickInput) :
    ((stepSt cfg s inp).pump_on = true →
      (stepSt cfg s inp).run_sec_this_hour =
        min cfg.HOURLY_BUCKET
          ((hourResetState cfg s inp.now).run_sec_this_hour + 1)) ∧
    ((stepSt cfg s inp).pump_on = false →
      (stepSt cfg s inp).run_sec_this_hour =
        (hourResetState cfg s inp.now).run_sec_this_hour) ∧
    (inp.now - s.hour_window_start ≥ cfg.HOURLY_BUCKET →
      (stepSt cfg s inp).hour_window_start = inp.now ∧
      (hourResetState cfg s inp.now).run_sec_this_hour = 0) ∧
    (¬ inp.now - s.hour_window_start ≥ cfg.HOURLY_BUCKET →
      (stepSt cfg s inp).hour_window_start = s.hour_window_start ∧
      (hourResetState cfg s inp.now).run_sec_this_hour =
        s.run_sec_this_hour) := by
  rw [stepSt_eq]
  set s4 := turnOffStep cfg
    (turnOnStep cfg
      ((manualCheck cfg (hourResetState cfg s inp.now) inp.now
          inp.pollResp).2) inp.now
      (arbitrate
        ((manualCheck cfg (hourResetState cfg s inp.now) inp.now
            inp.pollResp).1).1
        ((manualCheck cfg (hourResetState cfg s inp.now) inp.now
            inp.pollResp).1).2
        (scorerProba cfg inp.modelProba) cfg.THRESH inp.soil
        cfg.EMERGENCY_ON_PCT).1) inp.now
    ((manualCheck cfg (hourResetState cfg s inp.now) inp.now
        inp.pollResp).1).1
    ((manualCheck cfg (hourResetState cfg s inp.now) inp.now
        inp.pollResp).1).2 with hs4
  have hs4run : s4.run_sec_this_hour =
      (hourResetState cfg s inp.now).run_sec_this_hour := by
    rw [hs4, turnOffStep_run_sec, turnOnStep_run_sec, manualCheck_run_sec]
  have hs4hw : s4.hour_window_start =
      (hourResetState cfg s inp.now).hour_window_start := by
    rw [hs4, turnOffStep_hour_window, turnOnStep_hour_window,
      manualCheck_hour_window]
  refine ⟨?_, ?_, ?_, ?_⟩
  · intro h
    rw [runIncrement_pump_on] at h
    rw [runIncrement_run_sec, if_pos h, hs4run]
  · intro h
    rw [runIncrement_pump_on] at h
    rw [runIncrement_run_sec, if_neg (by rw [h]; simp), hs4run]
  · intro h
    constructor
    · rw [runIncrement_hour_window, hs4hw, hourResetState_pos cfg s inp.now h]
    · rw [hourResetState_pos cfg s inp.now h]
  · intro h
    constructor
    · rw [runIncrement_hour_window, hs4hw, hourResetState_neg cfg s inp.now h]
    · rw [hourResetState_neg cfg s inp.now h]

/-- Witness for the amended C7 theorem: the tick at `t = 1` of the
counterexample trace increments the counter from 0 to
`min 3600 (0 + 1) = 1`. -/
theorem c7_hourly_counter_witness :
    (stepSt cfgM sOnNoPoll c7Tick1).run_sec_this_hour =
      min cfgM.HOURLY_BUCKET
        ((hourResetState cfgM sOnNoPoll c7Tick1.now).run_sec_this_hour + 1) :=
  (c7_hourly_counter cfgM sOnNoPoll c7Tick1).1
    (of_decide_eq_true (by with_unfolding_all rfl))

/-- C8: on any tick at which the pump is on, `MIN_ON_SEC` has elapsed since
the `OFF → ON` transition, and a due manual-control poll returns
`{manual_enabled: true, pump_command: false}`, the step turns the pump off —
even when the soil percentage is at or below the emergency threshold
(the hypothesis `hsoil`): the manual OFF command overrides emergency
irrigation.  Combined with clause (a): the guard releases the OFF branch at
the first tick `MIN_ON_SEC` after the transition, so the pump is forced off
within `MIN_ON_SEC` (plus tick granularity) of the ON transition. -/
theorem c8_manual_off_override (cfg : Config) (s : LoopState)
    (inp : TickInput) (hon : s.pump_on = true)
    (hdue : inp.now - s.last_control_check ≥ cfg.CONTROL_CHECK_INTERVAL)
    (hresp : inp.pollResp = some (some true, some false))
    (hmin : inp.now - s.last_change ≥ cfg.MIN_ON_SEC)
    (hsoil : inp.soil ≤ cfg.EMERGENCY_ON_PCT) :
    (stepSt cfg s inp).pump_on = false := by
  have hmc : (manualCheck cfg (hourResetState cfg s inp.now) inp.now
      inp.pollResp).1 = (true, false) := by
    unfold manualCheck
    rw [if_pos (by rw [hourResetState_control_check]; exact hdue), hresp]
    rfl
  rw [stepSt_eq, hmc]
  have hp2 : ((manualCheck cfg (hourResetState cfg s inp.now) inp.now
      inp.pollResp).2).pump_on = true := by
    rw [manualCheck_pump_on, hourResetState_pump_on]; exact hon
  have h3 : turnOnStep cfg
      ((manualCheck cfg (hourResetState cfg s inp.now) inp.now
          inp.pollResp).2) inp.now
      (arbitrate (true, false).1 (true, false).2
        (scorerProba cfg inp.modelProba) cfg.THRESH inp.soil
        cfg.EMERGENCY_ON_PCT).1 =
      (manualCheck cfg (hourResetState cfg s inp.now) inp.now
          inp.pollResp).2 := by
    rcases turnOnStep_cases cfg
        ((manualCheck cfg (hourResetState cfg s inp.now) inp.now
            inp.pollResp).2) inp.now _ with hc | ⟨_, hc2, _⟩
    · exact hc
    · rw [hp2] at hc2; cases hc2
  rw [h3, runIncrement_pump_on]
  apply turnOffStep_manual
  · exact hp2
  · rw [manualCheck_last_change, hourResetState_last_change]; exact hmin

/-- Witness for C8: pump on since `t = 0`, manual OFF observed at
`t = 6 = MIN_ON_SEC` with soil at 15 % (below the 20 % emergency
threshold) and a high model probability — the pump still goes off. -/
theorem c8_manual_off_override_witness :
    (stepSt cfgM sOn0 c8Tick).pump_on = false :=
  c8_manual_off_override cfgM sOn0 c8Tick rfl
    (of_decide_eq_true (by with_unfolding_all rfl)) rfl
    (of_decide_eq_true (by with_unfolding_all rfl))
    (of_decide_eq_true (by with_unfolding_all rfl))

end SmartFarm
